import Mathlib

/-!
Shallow embedding of the retry/classification/backoff core and the evaluation
worker of the ai-cv-evaluator repository, together with theorems settling the
frozen claims about them.

Source files embedded:
- src/shared/retry.config.ts : RetryConfig, PDF_RETRY_CONFIG, TEXT_RETRY_CONFIG,
  retryable / non-retryable status code and message pattern lists.
- src/shared/retry.utils.ts : isRetryableError, calculateBackoffDelay,
  formatDuration, getErrorMessage.
- src/shared/retry.decorator.ts : Retry, RetryWithTimeout.
- src/shared/llm.service.ts : the decorator wiring on
  callGeminiFlashLiteWithPDF and callGeminiFlash.
- src/evaluate/evaluation.processor.ts : EvaluationProcessor.process.
-/

/--
Model of a JavaScript error object as inspected by `isRetryableError` and
`getErrorMessage`.  The fields mirror the property accesses performed by the
source: `error.status`, `error.statusCode`, `error.response?.status`,
`error.message`, `error.toString()`, `error.code`,
`error.response?.data?.message`.  `none` models an absent / undefined field.
-/
structure ErrorObj where
  status : Option Nat
  statusCode : Option Nat
  responseStatus : Option Nat
  message : Option String
  toStr : String
  code : Option String
  responseDataMessage : Option String
deriving DecidableEq

/--
A thrown JavaScript value as seen by the classifier: either a nullish value
(null / undefined, rejected by the `if (!error)` guard) or an error object.
-/
inductive JsError where
  | nullish
  | obj (e : ErrorObj)
deriving DecidableEq

/-- JavaScript truthiness of an optional number field (0 and absent are falsy). -/
def jsTruthyNat : Option Nat → Bool
  | some n => n != 0
  | none => false

/-- JavaScript truthiness of an optional string field (empty and absent are falsy). -/
def jsTruthyStr : Option String → Bool
  | some s => s != ""
  | none => false

/-- JavaScript `a || b` on an optional numeric field: the first truthy value. -/
def jsOrNat : Option Nat → Option Nat → Option Nat
  | some n, b => if n = 0 then b else some n
  | none, b => b

/-- JavaScript `a || b` where `a` is an optional string and `b` a string. -/
def jsOrStr : Option String → String → String
  | some s, b => if s = "" then b else s
  | none, b => b

/-- `errorMessage` models `error.message || error.toString() || ''` from
retry.utils.ts line 152 (a falsy toString result collapses to the empty
string either way). -/
def errorMessage (e : ErrorObj) : String :=
  jsOrStr e.message e.toStr

/-- ASCII lowercasing, modelling `String.prototype.toLowerCase` on the ASCII
config patterns and error messages the source compares. -/
def strToLower (s : String) : String :=
  ⟨s.data.map Char.toLower⟩

/-- Character-list prefix test, modelling the inner loop of JavaScript
`String.prototype.includes`. -/
def listPrefixEq : List Char → List Char → Bool
  | [], _ => true
  | _ :: _, [] => false
  | a :: as, b :: bs => a == b && listPrefixEq as bs

/-- Character-list substring test: the pattern occurs at some position. -/
def listContainsSub (pat : List Char) : List Char → Bool
  | [] => listPrefixEq pat []
  | c :: rest => listPrefixEq pat (c :: rest) || listContainsSub pat rest

/-- `strIncludes s pat` models the JavaScript call `s.includes(pat)`. -/
def strIncludes (s pat : String) : Bool :=
  listContainsSub pat.toList s.toList

/-- retry.config.ts lines 100-106: HTTP status codes that should trigger a retry. -/
def RETRYABLE_HTTP_STATUS_CODES : List Nat := [429, 500, 502, 503, 504]

/-- retry.config.ts lines 112-119: HTTP status codes that should not trigger a retry. -/
def NON_RETRYABLE_HTTP_STATUS_CODES : List Nat := [400, 401, 403, 404, 405, 422]

/-- retry.config.ts lines 125-142: message patterns indicating a retryable error. -/
def RETRYABLE_ERROR_PATTERNS : List String :=
  ["timeout", "ETIMEDOUT", "EHOSTUNREACH", "ECONNREFUSED", "ECONNRESET",
   "EPIPE", "Rate limit", "rate limit", "Service Unavailable",
   "service unavailable", "Gateway Timeout", "gateway timeout",
   "Too Many Requests", "too many requests", "Network Error", "network error"]

/-- retry.config.ts lines 148-165: message patterns indicating a permanent error. -/
def NON_RETRYABLE_ERROR_PATTERNS : List String :=
  ["Invalid API key", "invalid api key", "Authentication failed",
   "authentication failed", "Unauthorized", "unauthorized", "Forbidden",
   "forbidden", "Not Found", "not found", "Bad Request", "bad request",
   "Invalid request", "invalid request", "Malformed", "malformed"]

/-- retry.utils.ts lines 170-178: retryable Node.js error codes. -/
def retryableErrorCodes : List String :=
  ["ETIMEDOUT", "EHOSTUNREACH", "ECONNREFUSED", "ECONNRESET", "EPIPE",
   "ENOTFOUND", "EAI_AGAIN"]

/--
Step 1 of `isRetryableError` (retry.utils.ts lines 136-149): the effective
status code is `error.status || error.statusCode || error.response?.status`;
when it is truthy, membership in the non-retryable list decides `false`,
then membership in the retryable list decides `true`; otherwise (status
absent, zero, or in neither list) the decision falls through (`none`).
-/
def statusDecision (e : ErrorObj) : Option Bool :=
  let st := jsOrNat e.status (jsOrNat e.statusCode e.responseStatus)
  if jsTruthyNat st then
    let n := st.getD 0
    if n ∈ NON_RETRYABLE_HTTP_STATUS_CODES then some false
    else if n ∈ RETRYABLE_HTTP_STATUS_CODES then some true
    else none
  else none

/--
`isRetryableError` from retry.utils.ts lines 129-189: nullish values are not
retryable; then status codes (step 1), then non-retryable message patterns
(step 2, priority), then retryable message patterns (step 3), then Node.js
error codes (step 4), defaulting to not-retryable (step 5).  All pattern
matching is case-insensitive substring matching, as in the source.
-/
def isRetryableError (error : JsError) : Bool :=
  match error with
  | .nullish => false
  | .obj e =>
    match statusDecision e with
    | some b => b
    | none =>
      let errorMessageLower := strToLower (errorMessage e)
      if NON_RETRYABLE_ERROR_PATTERNS.any
          (fun pattern => strIncludes errorMessageLower (strToLower pattern)) then
        false
      else if RETRYABLE_ERROR_PATTERNS.any
          (fun pattern => strIncludes errorMessageLower (strToLower pattern)) then
        true
      else if jsTruthyStr e.code && retryableErrorCodes.contains (e.code.getD "") then
        true
      else
        false

/-- `getErrorMessage` from retry.utils.ts lines 290-300: prefers
`error.response?.data?.message`, then `error.message`, then `error.toString()`. -/
def getErrorMessage (e : ErrorObj) : String :=
  if jsTruthyStr e.responseDataMessage then e.responseDataMessage.getD ""
  else if jsTruthyStr e.message then e.message.getD ""
  else e.toStr

/-- `RetryConfig` from retry.config.ts lines 8-45.  Millisecond quantities are
JavaScript numbers, modelled as rationals. -/
structure RetryConfig where
  maxRetries : Nat
  initialDelayMs : ℚ
  maxDelayMs : ℚ
  backoffMultiplier : ℚ
  timeoutMs : ℚ
  enableJitter : Bool
deriving DecidableEq

/-- `PDF_RETRY_CONFIG` from retry.config.ts lines 59-66. -/
def PDF_RETRY_CONFIG : RetryConfig :=
  { maxRetries := 4
    initialDelayMs := 1000
    maxDelayMs := 30000
    backoffMultiplier := 2
    timeoutMs := 90000
    enableJitter := true }

/-- `TEXT_RETRY_CONFIG` from retry.config.ts lines 80-87. -/
def TEXT_RETRY_CONFIG : RetryConfig :=
  { maxRetries := 3
    initialDelayMs := 500
    maxDelayMs := 20000
    backoffMultiplier := 2
    timeoutMs := 60000
    enableJitter := true }

/-- `DEFAULT_RETRY_CONFIG` from retry.config.ts line 94. -/
def DEFAULT_RETRY_CONFIG : RetryConfig := TEXT_RETRY_CONFIG

/--
`calculateBackoffDelay` from retry.utils.ts lines 211-231.  `rand` models the
value drawn from `Math.random()` for this call (a real in `[0,1)`); with
jitter enabled the capped exponential delay is multiplied by `0.5 + rand`
and floored, otherwise the capped delay is returned unchanged.
-/
def calculateBackoffDelay (attemptNumber : Nat) (config : RetryConfig)
    (rand : ℚ) : ℚ :=
  let exponentialDelay :=
    config.initialDelayMs * config.backoffMultiplier ^ attemptNumber
  let cappedDelay := min exponentialDelay config.maxDelayMs
  if config.enableJitter then
    let jitterFactor := 1 / 2 + rand
    (⌊cappedDelay * jitterFactor⌋ : ℤ)
  else
    cappedDelay

/-- `formatDuration` from retry.utils.ts lines 260-277 (on the integral
millisecond values the source feeds it). -/
def formatDuration (ms : ℚ) : String :=
  if ms < 1000 then
    toString ms ++ "ms"
  else
    let seconds : ℤ := ⌊ms / 1000⌋
    let minutes : ℤ := ⌊(seconds : ℚ) / 60⌋
    if minutes > 0 then
      let remainingSeconds := seconds % 60
      if remainingSeconds > 0 then
        toString minutes ++ "m " ++ toString remainingSeconds ++ "s"
      else
        toString minutes ++ "m"
    else
      let remainingMs := ms - 1000 * (seconds : ℚ)
      if remainingMs > 0 then
        toString seconds ++ "." ++ toString (⌊remainingMs / 100⌋ : ℤ) ++ "s"
      else
        toString seconds ++ "s"

/--
Observable outcome of one run of a retry executor: the value returned or the
error finally thrown, the number of times the wrapped operation was invoked,
and the total backoff delay slept between attempts.
-/
structure RunResult (α : Type) where
  result : Except JsError α
  calls : Nat
  totalDelay : ℚ

/--
The attempt loop of the `Retry` decorator (retry.decorator.ts lines 379-470),
indexed by the number of retries still allowed (`remaining`, initially
`config.maxRetries`) and the current attempt number.  `op i` is the outcome of
the i-th invocation of the wrapped method; `rand i` is the `Math.random()`
draw used for the backoff after attempt `i`.  A success returns immediately;
a failure on the last allowed attempt, or a failure classified non-retryable,
is thrown; otherwise the loop sleeps `calculateBackoffDelay` and continues.
-/
def retryAux {α : Type} (config : RetryConfig) (op : Nat → Except JsError α)
    (rand : Nat → ℚ) : Nat → Nat → RunResult α
  | 0, attempt =>
    match op attempt with
    | .ok v => ⟨.ok v, 1, 0⟩
    | .error e => ⟨.error e, 1, 0⟩
  | remaining + 1, attempt =>
    match op attempt with
    | .ok v => ⟨.ok v, 1, 0⟩
    | .error e =>
      if isRetryableError e then
        let rest := retryAux config op rand remaining (attempt + 1)
        ⟨rest.result, rest.calls + 1,
          rest.totalDelay + calculateBackoffDelay attempt config (rand attempt)⟩
      else
        ⟨.error e, 1, 0⟩

/-- A full run of the `Retry` decorator: the loop
`for (attempt = 0; attempt <= config.maxRetries; attempt++)`. -/
def retryRun {α : Type} (config : RetryConfig) (op : Nat → Except JsError α)
    (rand : Nat → ℚ) : RunResult α :=
  retryAux config op rand config.maxRetries 0

/-- The `Error` object constructed when `RetryWithTimeout` fires its timeout
(retry.decorator.ts lines 518-526). -/
def timeoutErrorObj (config : RetryConfig) : ErrorObj :=
  { status := none
    statusCode := none
    responseStatus := none
    message := some ("Operation timed out after " ++ formatDuration config.timeoutMs)
    toStr := "Error: Operation timed out after " ++ formatDuration config.timeoutMs
    code := none
    responseDataMessage := none }

/--
One attempt of `RetryWithTimeout` (retry.decorator.ts lines 517-532): the
wrapped method, which takes `(op i).1` milliseconds to settle with outcome
`(op i).2`, races a timer of `config.timeoutMs` milliseconds; the timer
winning rejects with the timeout error.
-/
def attemptWithTimeout {α : Type} (config : RetryConfig)
    (op : Nat → ℚ × Except JsError α) (attempt : Nat) : Except JsError α :=
  if (op attempt).1 < config.timeoutMs then (op attempt).2
  else .error (.obj (timeoutErrorObj config))

/-- The attempt loop of `RetryWithTimeout` (retry.decorator.ts lines 508-593):
identical to `retryAux` except that each attempt is raced against the
per-attempt timer. -/
def retryWithTimeoutAux {α : Type} (config : RetryConfig)
    (op : Nat → ℚ × Except JsError α) (rand : Nat → ℚ) : Nat → Nat → RunResult α
  | 0, attempt =>
    match attemptWithTimeout config op attempt with
    | .ok v => ⟨.ok v, 1, 0⟩
    | .error e => ⟨.error e, 1, 0⟩
  | remaining + 1, attempt =>
    match attemptWithTimeout config op attempt with
    | .ok v => ⟨.ok v, 1, 0⟩
    | .error e =>
      if isRetryableError e then
        let rest := retryWithTimeoutAux config op rand remaining (attempt + 1)
        ⟨rest.result, rest.calls + 1,
          rest.totalDelay + calculateBackoffDelay attempt config (rand attempt)⟩
      else
        ⟨.error e, 1, 0⟩

/-- A full run of the `RetryWithTimeout` decorator. -/
def retryWithTimeoutRun {α : Type} (config : RetryConfig)
    (op : Nat → ℚ × Except JsError α) (rand : Nat → ℚ) : RunResult α :=
  retryWithTimeoutAux config op rand config.maxRetries 0

/--
The plain `Retry` decorator applied to a timed operation: `Retry` awaits the
wrapped method with no race against a timer (retry.decorator.ts line 393), so
an attempt taking `(op i).1` milliseconds simply settles with its own outcome
`(op i).2` and the duration never influences control flow.
-/
def retryTimedRun {α : Type} (config : RetryConfig)
    (op : Nat → ℚ × Except JsError α) (rand : Nat → ℚ) : RunResult α :=
  retryRun config (fun i => (op i).2) rand

/--
The executor the service actually applies to `callGeminiFlashLiteWithPDF`
(llm.service.ts line 34): the plain `Retry` decorator with
`PDF_RETRY_CONFIG`.
-/
def callGeminiFlashLiteWithPDFRun {α : Type} (op : Nat → ℚ × Except JsError α)
    (rand : Nat → ℚ) : RunResult α :=
  retryTimedRun PDF_RETRY_CONFIG op rand

/--
The executor the service actually applies to `callGeminiFlash`
(llm.service.ts line 81): the plain `Retry` decorator with
`TEXT_RETRY_CONFIG`.
-/
def callGeminiFlashRun {α : Type} (op : Nat → ℚ × Except JsError α)
    (rand : Nat → ℚ) : RunResult α :=
  retryTimedRun TEXT_RETRY_CONFIG op rand

/-- The result tuple produced by `EvaluateService.performEvaluation` and
written by the worker on success (evaluation.processor.ts lines 50-61). -/
structure EvalResult where
  cv_match_rate : ℚ
  cv_feedback : String
  project_score : ℚ
  project_feedback : String
  overall_summary : String
deriving DecidableEq

/-- Outcome of awaiting `performEvaluation`: its result or the error it threw. -/
inductive EvalOutcome where
  | success (r : EvalResult)
  | failure (e : ErrorObj)
deriving DecidableEq

/-- The persisted evaluation record as read and mutated by
`EvaluationProcessor.process`.  Timestamps are abstract instants. -/
structure EvaluationRecord where
  status : String
  cv_match_rate : Option ℚ := none
  cv_feedback : Option String := none
  project_score : Option ℚ := none
  project_feedback : Option String := none
  overall_summary : Option String := none
  error_message : Option String := none
  retry_count : Option Nat := none
  started_at : Option Nat := none
  completed_at : Option Nat := none
deriving DecidableEq

/-- The first database update of `process` (evaluation.processor.ts lines
34-40): unconditionally set status to processing and stamp the start time. -/
def processUpdateProcessing (rec : EvaluationRecord) (t : Nat) : EvaluationRecord :=
  { rec with status := "processing", started_at := some t }

/-- The success-path update of `process` (evaluation.processor.ts lines
50-61): one update writing status, all five result fields and the completion
time together. -/
def processUpdateCompleted (rec : EvaluationRecord) (r : EvalResult)
    (t : Nat) : EvaluationRecord :=
  { rec with
    status := "completed"
    cv_match_rate := some r.cv_match_rate
    cv_feedback := some r.cv_feedback
    project_score := some r.project_score
    project_feedback := some r.project_feedback
    overall_summary := some r.overall_summary
    completed_at := some t }

/-- The failure-path update of `process` (evaluation.processor.ts lines
64-100): store the extracted message, increment the retry counter read back
from the record (`(currentEvaluation?.retry_count || 0) + 1`), mark failed
and stamp the completion time. -/
def processUpdateFailed (rec : EvaluationRecord) (e : ErrorObj)
    (t : Nat) : EvaluationRecord :=
  { rec with
    status := "failed"
    error_message := some (getErrorMessage e)
    retry_count := some (rec.retry_count.getD 0 + 1)
    completed_at := some t }

/-- Observable effect of one `EvaluationProcessor.process` invocation: the
final record, the sequence of record states after each database update, and
the error re-thrown to the queue infrastructure (if any). -/
structure ProcessResult where
  record : EvaluationRecord
  trace : List EvaluationRecord
  rethrown : Option ErrorObj
deriving DecidableEq

/--
`EvaluationProcessor.process` (evaluation.processor.ts lines 27-107) on a
record in state `rec`, with the evaluation settling as `outcome`: first the
unconditional update to processing (stamped `t1`), then either the single
completed update with all five result fields, or the failed update followed
by re-throwing the error (stamped `t2`).
-/
def process (rec : EvaluationRecord) (outcome : EvalOutcome)
    (t1 t2 : Nat) : ProcessResult :=
  let rec1 := processUpdateProcessing rec t1
  match outcome with
  | .success r =>
    let rec2 := processUpdateCompleted rec1 r t2
    ⟨rec2, [rec1, rec2], none⟩
  | .failure e =>
    let rec2 := processUpdateFailed rec1 e t2
    ⟨rec2, [rec1, rec2], some e⟩

/-- A concrete HTTP 503 failure, as returned by the remote service when
temporarily unavailable (a retryable status code). -/
def err503 : ErrorObj :=
  { status := some 503
    statusCode := none
    responseStatus := none
    message := some "Service Unavailable"
    toStr := "Error: Service Unavailable"
    code := none
    responseDataMessage := none }

/-- A concrete HTTP 401 failure, as returned by the remote service on bad
credentials (a non-retryable status code). -/
def err401 : ErrorObj :=
  { status := some 401
    statusCode := none
    responseStatus := none
    message := some "Unauthorized"
    toStr := "Error: Unauthorized"
    code := none
    responseDataMessage := none }

/-- A concrete failure carrying no status code whose message matches both a
non-retryable pattern (unauthorized) and a retryable pattern (rate limit). -/
def errBoth : ErrorObj :=
  { status := none
    statusCode := none
    responseStatus := none
    message := some "Unauthorized: rate limit exceeded"
    toStr := "Error: Unauthorized: rate limit exceeded"
    code := none
    responseDataMessage := none }

/-- An operation that always fails with the 503 error. -/
def opAlways503 : Nat → Except JsError Nat :=
  fun _ => .error (.obj err503)

/-- An operation that fails retryably on its first invocation and succeeds
with value 7 on every later invocation. -/
def opFailThenOk : Nat → Except JsError Nat
  | 0 => .error (.obj err503)
  | _ + 1 => .ok 7

/-- An operation that always fails with the 401 error. -/
def opFail401 : Nat → Except JsError Nat :=
  fun _ => .error (.obj err401)

/-- A timed operation whose every attempt takes 1,000,000 ms (far beyond any
configured timeout) and then resolves successfully with 42. -/
def opLong : Nat → ℚ × Except JsError Nat :=
  fun _ => (1000000, .ok 42)

/-- A concrete successful evaluation result. -/
def sampleResult : EvalResult :=
  { cv_match_rate := 1
    cv_feedback := "strong match"
    project_score := 4
    project_feedback := "solid project"
    overall_summary := "good candidate" }

/-- A freshly created record, as the request layer creates it: queued, no
result fields, no failure fields. -/
def freshRecord : EvaluationRecord :=
  { status := "queued" }

/-- A record already in the terminal completed state, with all result fields
populated (as left by a previous successful run). -/
def completedRecord : EvaluationRecord :=
  { status := "completed"
    cv_match_rate := some 1
    cv_feedback := some "strong match"
    project_score := some 4
    project_feedback := some "solid project"
    overall_summary := some "good candidate"
    error_message := none
    retry_count := some 0
    started_at := some 1
    completed_at := some 2 }

/-- Helper: if the operation fails retryably on attempts `attempt` to
`attempt + k - 1` and succeeds on attempt `attempt + k`, with at least `k`
retries still allowed, the loop returns that success after `k + 1` calls. -/
theorem retryAux_ok_after {α : Type} (config : RetryConfig)
    (op : Nat → Except JsError α) (rand : Nat → ℚ) :
    ∀ (k remaining attempt : Nat) (v : α), k ≤ remaining →
      (∀ i, i < k → ∃ e, op (attempt + i) = .error e ∧ isRetryableError e = true) →
      op (attempt + k) = .ok v →
      (retryAux config op rand remaining attempt).result = .ok v ∧
      (retryAux config op rand remaining attempt).calls = k + 1 := by
  intro k
  induction k with
  | zero =>
    intro remaining attempt v _ _ hsucc
    rw [Nat.add_zero] at hsucc
    cases remaining with
    | zero => simp [retryAux, hsucc]
    | succ r => simp [retryAux, hsucc]
  | succ k ih =>
    intro remaining attempt v hle hfail hsucc
    cases remaining with
    | zero => omega
    | succ r =>
      obtain ⟨e, he, hre⟩ := hfail 0 (Nat.succ_pos k)
      rw [Nat.add_zero] at he
      have hrec := ih r (attempt + 1) v (by omega)
        (fun i hi => by
          obtain ⟨e2, he2, hre2⟩ := hfail (i + 1) (by omega)
          refine ⟨e2, ?_, hre2⟩
          rw [show attempt + 1 + i = attempt + (i + 1) by omega]
          exact he2)
        (by
          rw [show attempt + 1 + k = attempt + (k + 1) by omega]
          exact hsucc)
      simp [retryAux, he, hre, hrec.1, hrec.2]

/-- Helper: if the operation fails retryably on every attempt, the loop makes
`remaining + 1` calls and throws the failure of the last attempt. -/
theorem retryAux_all_fail {α : Type} (config : RetryConfig)
    (op : Nat → Except JsError α) (rand : Nat → ℚ) (f : Nat → JsError)
    (hf : ∀ i, op i = .error (f i)) (hr : ∀ i, isRetryableError (f i) = true) :
    ∀ remaining attempt,
      (retryAux config op rand remaining attempt).result = .error (f (attempt + remaining)) ∧
      (retryAux config op rand remaining attempt).calls = remaining + 1 := by
  intro remaining
  induction remaining with
  | zero =>
    intro attempt
    simp [retryAux, hf attempt]
  | succ r ih =>
    intro attempt
    have hrec := ih (attempt + 1)
    rw [show attempt + (r + 1) = attempt + 1 + r by omega]
    simp [retryAux, hf attempt, hr attempt, hrec.1, hrec.2]

/--
C5: for every retry policy and every operation that fails `k` times with a
failure classified retryable and then succeeds, where `k < policy.maxRetries`,
the Call Executor returns the success value and invokes the operation exactly
`k + 1` times.
-/
theorem retryRun_transient_then_success {α : Type} (config : RetryConfig)
    (op : Nat → Except JsError α) (rand : Nat → ℚ) (k : Nat) (v : α)
    (hk : k < config.maxRetries)
    (hfail : ∀ i, i < k → ∃ e, op i = .error e ∧ isRetryableError e = true)
    (hsucc : op k = .ok v) :
    (retryRun config op rand).result = .ok v ∧
    (retryRun config op rand).calls = k + 1 := by
  unfold retryRun
  refine retryAux_ok_after config op rand k config.maxRetries 0 v (Nat.le_of_lt hk) ?_ ?_
  · intro i hi
    simpa using hfail i hi
  · simpa using hsucc

/-- Witness for C5: under the synthesis policy, an operation failing once with
a 503 and then succeeding with 7 yields the success after exactly 2 calls. -/
theorem retryRun_transient_then_success_witness :
    1 < TEXT_RETRY_CONFIG.maxRetries ∧
    (retryRun TEXT_RETRY_CONFIG opFailThenOk (fun _ => 0)).result = .ok 7 ∧
    (retryRun TEXT_RETRY_CONFIG opFailThenOk (fun _ => 0)).calls = 2 := by
  refine ⟨by decide, ?_⟩
  exact retryRun_transient_then_success TEXT_RETRY_CONFIG opFailThenOk (fun _ => 0) 1 7
    (by decide)
    (fun i hi => by
      obtain rfl : i = 0 := by omega
      exact ⟨.obj err503, rfl, rfl⟩)
    rfl

/--
C6: for every retry policy and every operation that always fails with a
failure classified retryable, the Call Executor invokes the operation exactly
`policy.maxRetries + 1` times and propagates the failure raised by the last
attempt.
-/
theorem retryRun_exhausts_retries {α : Type} (config : RetryConfig)
    (op : Nat → Except JsError α) (rand : Nat → ℚ) (f : Nat → JsError)
    (hf : ∀ i, op i = .error (f i)) (hr : ∀ i, isRetryableError (f i) = true) :
    (retryRun config op rand).calls = config.maxRetries + 1 ∧
    (retryRun config op rand).result = .error (f config.maxRetries) := by
  unfold retryRun
  have h := retryAux_all_fail config op rand f hf hr config.maxRetries 0
  rw [Nat.zero_add] at h
  exact ⟨h.2, h.1⟩

/-- Witness for C6: under the synthesis policy (3 retries), an operation that
always fails with a 503 is invoked 4 times and the 503 is propagated. -/
theorem retryRun_exhausts_retries_witness :
    (retryRun TEXT_RETRY_CONFIG opAlways503 (fun _ => 0)).calls
      = TEXT_RETRY_CONFIG.maxRetries + 1 ∧
    (retryRun TEXT_RETRY_CONFIG opAlways503 (fun _ => 0)).result
      = .error (.obj err503) :=
  retryRun_exhausts_retries TEXT_RETRY_CONFIG opAlways503 (fun _ => 0)
    (fun _ => .obj err503) (fun _ => rfl) (fun _ => rfl)

/--
C7: for every retry policy and every operation whose first-attempt failure is
classified non-retryable, the Call Executor invokes the operation exactly
once, propagates that failure, and incurs no backoff delay.
-/
theorem retryRun_permanent_fails_fast {α : Type} (config : RetryConfig)
    (op : Nat → Except JsError α) (rand : Nat → ℚ) (e : JsError)
    (h0 : op 0 = .error e) (hperm : isRetryableError e = false) :
    (retryRun config op rand).result = .error e ∧
    (retryRun config op rand).calls = 1 ∧
    (retryRun config op rand).totalDelay = 0 := by
  unfold retryRun
  cases hm : config.maxRetries with
  | zero => simp [retryAux, h0]
  | succ r => simp [retryAux, h0, hperm]

/-- Witness for C7: under the CV/project policy, an operation failing with a
401 on the first attempt is invoked once, with zero total delay. -/
theorem retryRun_permanent_fails_fast_witness :
    (retryRun PDF_RETRY_CONFIG opFail401 (fun _ => 0)).result = .error (.obj err401) ∧
    (retryRun PDF_RETRY_CONFIG opFail401 (fun _ => 0)).calls = 1 ∧
    (retryRun PDF_RETRY_CONFIG opFail401 (fun _ => 0)).totalDelay = 0 :=
  retryRun_permanent_fails_fast PDF_RETRY_CONFIG opFail401 (fun _ => 0)
    (.obj err401) rfl rfl

/--
C9: for every failure without a decisive HTTP status code whose message
matches both a non-retryable pattern and a retryable pattern
(case-insensitively), the classifier returns not-retryable: the
non-retryable pattern check runs first and wins.
-/
theorem isRetryableError_nonretryable_pattern_wins (e : ErrorObj)
    (hs : statusDecision e = none)
    (hn : NON_RETRYABLE_ERROR_PATTERNS.any
      (fun pattern => strIncludes (strToLower (errorMessage e)) (strToLower pattern)) = true)
    (hr : RETRYABLE_ERROR_PATTERNS.any
      (fun pattern => strIncludes (strToLower (errorMessage e)) (strToLower pattern)) = true) :
    isRetryableError (.obj e) = false := by
  simp only [isRetryableError, hs, hn, if_true]

/-- Witness for C9: a failure with no status code whose message contains both
the unauthorized and the rate-limit pattern is classified not-retryable. -/
theorem isRetryableError_nonretryable_pattern_wins_witness :
    statusDecision errBoth = none ∧
    NON_RETRYABLE_ERROR_PATTERNS.any
      (fun pattern => strIncludes (strToLower (errorMessage errBoth)) (strToLower pattern)) = true ∧
    RETRYABLE_ERROR_PATTERNS.any
      (fun pattern => strIncludes (strToLower (errorMessage errBoth)) (strToLower pattern)) = true ∧
    isRetryableError (.obj errBoth) = false :=
  ⟨rfl, rfl, rfl, isRetryableError_nonretryable_pattern_wins errBoth rfl rfl rfl⟩

/--
C10: a nullish thrown value is classified not-retryable by the initial guard,
so the Call Executor invokes an operation throwing a nullish value exactly
once and never retries it.
-/
theorem isRetryableError_nullish_never_retries :
    isRetryableError .nullish = false ∧
    ∀ (config : RetryConfig) (rand : Nat → ℚ),
      (retryRun config (fun _ => (Except.error .nullish : Except JsError Nat)) rand).result
        = .error .nullish ∧
      (retryRun config (fun _ => (Except.error .nullish : Except JsError Nat)) rand).calls = 1 := by
  refine ⟨rfl, fun config rand => ?_⟩
  unfold retryRun
  cases hm : config.maxRetries with
  | zero => exact ⟨rfl, rfl⟩
  | succ r => exact ⟨rfl, rfl⟩

/-- Helper: the duration string produced for the 90 s PDF-policy timeout. -/
theorem formatDuration_90000 : formatDuration (90000 : ℚ) = "1m 30s" := by
  rw [formatDuration, if_neg (by norm_num : ¬ (90000 : ℚ) < 1000)]
  have h1 : (⌊(90000 : ℚ) / 1000⌋ : ℤ) = 90 := by
    rw [Int.floor_eq_iff] <;> norm_num
  simp only [h1]
  have h2 : (⌊((90 : ℤ) : ℚ) / 60⌋ : ℤ) = 1 := by
    rw [Int.floor_eq_iff] <;> norm_num
  simp only [h2]
  norm_num
  rfl

/-- Helper: the concrete timeout error raised under the PDF policy. -/
theorem timeoutErrorObj_PDF_eq :
    timeoutErrorObj PDF_RETRY_CONFIG =
      { status := none, statusCode := none, responseStatus := none,
        message := some "Operation timed out after 1m 30s",
        toStr := "Error: Operation timed out after 1m 30s",
        code := none, responseDataMessage := none } := by
  simp [timeoutErrorObj, show PDF_RETRY_CONFIG.timeoutMs = (90000 : ℚ) from rfl,
    formatDuration_90000]

/-- Helper: the PDF-policy timeout error is classified not-retryable (its
message contains the words timed out, which match no retryable pattern). -/
theorem timeoutErrorObj_PDF_not_retryable :
    isRetryableError (.obj (timeoutErrorObj PDF_RETRY_CONFIG)) = false := by
  rw [timeoutErrorObj_PDF_eq]
  rfl

/--
C1: the claim states that the retry wrapper applied to the stage calls runs
each attempt under a deadline of `policy.timeout`.  The source applies the
plain `Retry` decorator (llm.service.ts lines 34 and 81), which never reads
`config.timeoutMs`: an attempt taking 1,000,000 ms — far beyond the 90 s PDF
deadline — completes successfully instead of producing a timeout failure.
Only the unused `RetryWithTimeout` decorator would have produced the timeout
failure the claim (and `RetryConfig.timeoutMs`'s own documentation) describes.
-/
theorem stageCalls_no_per_attempt_deadline :
    (1000000 : ℚ) > PDF_RETRY_CONFIG.timeoutMs ∧
    (callGeminiFlashLiteWithPDFRun opLong (fun _ => 0)).result = .ok 42 ∧
    (retryWithTimeoutRun PDF_RETRY_CONFIG opLong (fun _ => 0)).result
      = .error (.obj (timeoutErrorObj PDF_RETRY_CONFIG)) ∧
    (retryWithTimeoutRun PDF_RETRY_CONFIG opLong (fun _ => 0)).calls = 1 := by
  have ha : attemptWithTimeout PDF_RETRY_CONFIG opLong 0
      = .error (.obj (timeoutErrorObj PDF_RETRY_CONFIG)) := rfl
  have hrun : retryWithTimeoutRun PDF_RETRY_CONFIG opLong (fun _ => 0)
      = ⟨.error (.obj (timeoutErrorObj PDF_RETRY_CONFIG)), 1, 0⟩ := by
    show retryWithTimeoutAux PDF_RETRY_CONFIG opLong (fun _ => 0) 4 0 = _
    rw [show (4 : Nat) = 3 + 1 from rfl]
    rw [retryWithTimeoutAux]
    rw [ha]
    simp [timeoutErrorObj_PDF_not_retryable]
  refine ⟨by norm_num [PDF_RETRY_CONFIG], rfl, ?_, ?_⟩
  · rw [hrun]
  · rw [hrun]

/--
C4 counterexample: with the PDF policy and jitter draw 0.9, attempt number 5
yields a delay of 42000 ms, strictly above `maxDelayMs = 30000`: jitter is
applied after the cap, so the returned delay can exceed `maxDelay`, refuting
the claim that the returned delay never exceeds `maxDelay`.
-/
theorem calculateBackoffDelay_can_exceed_maxDelay :
    calculateBackoffDelay 5 PDF_RETRY_CONFIG (9 / 10) = 42000 ∧
    PDF_RETRY_CONFIG.maxDelayMs = 30000 ∧
    (42000 : ℚ) > PDF_RETRY_CONFIG.maxDelayMs := by
  refine ⟨?_, rfl, by norm_num [PDF_RETRY_CONFIG]⟩
  norm_num [calculateBackoffDelay, PDF_RETRY_CONFIG, min_def]

/--
C4 amended: for every policy with jitter enabled, every attempt number and
every jitter draw in [0,1), the returned delay lies strictly above
`c/2 - 1` and at most `1.5 * c`, where `c = min(base(n), maxDelay)` is the
capped base delay; hence it never exceeds `1.5 * maxDelay` (but can exceed
`maxDelay` itself, since jitter multiplies the already-capped delay).
-/
theorem calculateBackoffDelay_jitter_bounds (config : RetryConfig) (n : Nat) (rand : ℚ)
    (hj : config.enableJitter = true) (h0 : 0 ≤ rand) (h1 : rand < 1)
    (hi : 0 ≤ config.initialDelayMs) (hb : 0 ≤ config.backoffMultiplier)
    (hm : 0 ≤ config.maxDelayMs) :
    min (config.initialDelayMs * config.backoffMultiplier ^ n) config.maxDelayMs / 2 - 1
        < calculateBackoffDelay n config rand ∧
    calculateBackoffDelay n config rand
        ≤ 3 / 2 * min (config.initialDelayMs * config.backoffMultiplier ^ n) config.maxDelayMs ∧
    calculateBackoffDelay n config rand ≤ 3 / 2 * config.maxDelayMs := by
  have hc0 : 0 ≤ min (config.initialDelayMs * config.backoffMultiplier ^ n) config.maxDelayMs :=
    le_min (mul_nonneg hi (pow_nonneg hb n)) hm
  set c := min (config.initialDelayMs * config.backoffMultiplier ^ n) config.maxDelayMs with hc
  have hd : calculateBackoffDelay n config rand = ((⌊c * (1 / 2 + rand)⌋ : ℤ) : ℚ) := by
    simp [calculateBackoffDelay, hj, hc]
  have hcm : c ≤ config.maxDelayMs := min_le_right _ _
  have hflo : c * (1 / 2 + rand) - 1 < ((⌊c * (1 / 2 + rand)⌋ : ℤ) : ℚ) :=
    Int.sub_one_lt_floor _
  have hfhi : ((⌊c * (1 / 2 + rand)⌋ : ℤ) : ℚ) ≤ c * (1 / 2 + rand) :=
    Int.floor_le _
  have hlow : c * (1 / 2) ≤ c * (1 / 2 + rand) :=
    mul_le_mul_of_nonneg_left (by linarith) hc0
  have hhigh : c * (1 / 2 + rand) ≤ c * (3 / 2) :=
    mul_le_mul_of_nonneg_left (by linarith) hc0
  rw [hd]
  refine ⟨by linarith, by linarith, by nlinarith⟩

/-- Witness for the amended C4 bounds at the PDF policy, attempt 0 and jitter
draw one half. -/
theorem calculateBackoffDelay_jitter_bounds_witness :
    PDF_RETRY_CONFIG.enableJitter = true ∧
    (0 : ℚ) ≤ 1 / 2 ∧ (1 / 2 : ℚ) < 1 ∧
    (0 : ℚ) ≤ PDF_RETRY_CONFIG.initialDelayMs ∧
    (0 : ℚ) ≤ PDF_RETRY_CONFIG.backoffMultiplier ∧
    (0 : ℚ) ≤ PDF_RETRY_CONFIG.maxDelayMs ∧
    (min (PDF_RETRY_CONFIG.initialDelayMs * PDF_RETRY_CONFIG.backoffMultiplier ^ 0)
        PDF_RETRY_CONFIG.maxDelayMs / 2 - 1
      < calculateBackoffDelay 0 PDF_RETRY_CONFIG (1 / 2) ∧
     calculateBackoffDelay 0 PDF_RETRY_CONFIG (1 / 2)
      ≤ 3 / 2 * min (PDF_RETRY_CONFIG.initialDelayMs * PDF_RETRY_CONFIG.backoffMultiplier ^ 0)
          PDF_RETRY_CONFIG.maxDelayMs ∧
     calculateBackoffDelay 0 PDF_RETRY_CONFIG (1 / 2) ≤ 3 / 2 * PDF_RETRY_CONFIG.maxDelayMs) :=
  ⟨rfl, by norm_num, by norm_num, by norm_num [PDF_RETRY_CONFIG],
   by norm_num [PDF_RETRY_CONFIG], by norm_num [PDF_RETRY_CONFIG],
   calculateBackoffDelay_jitter_bounds PDF_RETRY_CONFIG 0 (1 / 2) rfl
     (by norm_num) (by norm_num) (by norm_num [PDF_RETRY_CONFIG])
     (by norm_num [PDF_RETRY_CONFIG]) (by norm_num [PDF_RETRY_CONFIG])⟩

/--
C2 counterexample: running the worker's process step on a record already in
the terminal completed state unconditionally re-transitions it to processing
(and then to failed here), so a transition out of a terminal state does
occur, refuting the claim that the worker never re-transitions a terminal
record.
-/
theorem process_retransitions_completed_record :
    completedRecord.status = "completed" ∧
    ((process completedRecord (.failure err401) 5 6).trace.map
      (fun r => r.status)) = ["processing", "failed"] :=
  ⟨rfl, rfl⟩

/--
C2 amended: the worker's process step unconditionally transitions the record
to processing first — regardless of its current status, including terminal
ones under at-least-once redelivery — and then to the terminal state matching
the outcome; within a single run the terminal write is the last transition.
-/
theorem process_trace_statuses (rec : EvaluationRecord) (o : EvalOutcome) (t1 t2 : Nat) :
    ((process rec o t1 t2).trace.map (fun r => r.status)) =
      ["processing",
        match o with
        | .success _ => "completed"
        | .failure _ => "failed"] ∧
    (process rec o t1 t2).record.status =
      (match o with
       | .success _ => "completed"
       | .failure _ => "failed") := by
  cases o <;> exact ⟨rfl, rfl⟩

/--
C3 counterexample: a fresh record that fails once and is then redelivered and
succeeds ends completed with all five result fields set and the stale error
message still populated — the completed update does not clear
`error_message` — refuting the claim that a record never reaches completed
with a populated error message.
-/
theorem process_can_complete_with_stale_error_message :
    ((process (process freshRecord (.failure err401) 1 2).record
        (.success sampleResult) 3 4).record.status = "completed") ∧
    ((process (process freshRecord (.failure err401) 1 2).record
        (.success sampleResult) 3 4).record.error_message = some "Unauthorized") ∧
    ((process (process freshRecord (.failure err401) 1 2).record
        (.success sampleResult) 3 4).record.cv_match_rate.isSome = true) :=
  ⟨rfl, rfl, rfl⟩

/--
C3 amended: for a record with no previously stored result or failure fields
(a single processing of a fresh record), the final state is mutually
exclusive: completed implies all five result fields set — written together by
the one completed update — and no error message; failed implies an error
message and no result fields.  Across redeliveries the exclusivity can break,
because the completed update does not clear an earlier error message and the
failed update does not clear earlier result fields.
-/
theorem process_fresh_record_exclusive (rec : EvaluationRecord) (o : EvalOutcome) (t1 t2 : Nat)
    (he : rec.error_message = none)
    (h1 : rec.cv_match_rate = none) (h2 : rec.cv_feedback = none)
    (h3 : rec.project_score = none) (h4 : rec.project_feedback = none)
    (h5 : rec.overall_summary = none) :
    ((process rec o t1 t2).record.status = "completed" →
      (process rec o t1 t2).record.cv_match_rate.isSome = true ∧
      (process rec o t1 t2).record.cv_feedback.isSome = true ∧
      (process rec o t1 t2).record.project_score.isSome = true ∧
      (process rec o t1 t2).record.project_feedback.isSome = true ∧
      (process rec o t1 t2).record.overall_summary.isSome = true ∧
      (process rec o t1 t2).record.error_message = none) ∧
    ((process rec o t1 t2).record.status = "failed" →
      (process rec o t1 t2).record.error_message.isSome = true ∧
      (process rec o t1 t2).record.cv_match_rate = none ∧
      (process rec o t1 t2).record.cv_feedback = none ∧
      (process rec o t1 t2).record.project_score = none ∧
      (process rec o t1 t2).record.project_feedback = none ∧
      (process rec o t1 t2).record.overall_summary = none) := by
  cases o with
  | success r =>
    refine ⟨fun _ => ⟨rfl, rfl, rfl, rfl, rfl, he⟩,
      fun hcon => absurd (show ("completed" : String) = "failed" from hcon) (by decide)⟩
  | failure e =>
    refine ⟨fun hcon => absurd (show ("failed" : String) = "completed" from hcon) (by decide),
      fun _ => ⟨rfl, h1, h2, h3, h4, h5⟩⟩

/-- Witness for the amended C3 at a fresh record: the success outcome yields
the exclusive completed state. -/
theorem process_fresh_record_exclusive_witness :
    ((process freshRecord (.success sampleResult) 1 2).record.status = "completed" →
      (process freshRecord (.success sampleResult) 1 2).record.cv_match_rate.isSome = true ∧
      (process freshRecord (.success sampleResult) 1 2).record.cv_feedback.isSome = true ∧
      (process freshRecord (.success sampleResult) 1 2).record.project_score.isSome = true ∧
      (process freshRecord (.success sampleResult) 1 2).record.project_feedback.isSome = true ∧
      (process freshRecord (.success sampleResult) 1 2).record.overall_summary.isSome = true ∧
      (process freshRecord (.success sampleResult) 1 2).record.error_message = none) ∧
    ((process freshRecord (.success sampleResult) 1 2).record.status = "failed" →
      (process freshRecord (.success sampleResult) 1 2).record.error_message.isSome = true ∧
      (process freshRecord (.success sampleResult) 1 2).record.cv_match_rate = none ∧
      (process freshRecord (.success sampleResult) 1 2).record.cv_feedback = none ∧
      (process freshRecord (.success sampleResult) 1 2).record.project_score = none ∧
      (process freshRecord (.success sampleResult) 1 2).record.project_feedback = none ∧
      (process freshRecord (.success sampleResult) 1 2).record.overall_summary = none) :=
  process_fresh_record_exclusive freshRecord (.success sampleResult) 1 2
    rfl rfl rfl rfl rfl rfl

/--
C8: for every record and every failure propagated to the worker — regardless
of stage of origin or classification — the recording step is uniform: the
extracted message is stored, the retry counter is incremented (a first
failure yields counter 1), the status becomes failed, the completion time is
stamped, and the same failure is re-thrown to the queue infrastructure.
-/
theorem process_failure_recording_uniform (rec : EvaluationRecord) (e : ErrorObj) (t1 t2 : Nat) :
    (process rec (.failure e) t1 t2).record.status = "failed" ∧
    (process rec (.failure e) t1 t2).record.error_message = some (getErrorMessage e) ∧
    (process rec (.failure e) t1 t2).record.retry_count
      = some (rec.retry_count.getD 0 + 1) ∧
    (process rec (.failure e) t1 t2).record.completed_at = some t2 ∧
    (process rec (.failure e) t1 t2).rethrown = some e ∧
    (rec.retry_count.getD 0 = 0 →
      (process rec (.failure e) t1 t2).record.retry_count = some 1) :=
  ⟨rfl, rfl, rfl, rfl, rfl, fun h => by simp [process, processUpdateFailed,
    processUpdateProcessing, h]⟩

/-- Witness for C8: a fresh record failing with the 401 error is marked
failed with the stored message, counter 1, and the error re-thrown. -/
theorem process_failure_recording_uniform_witness :
    (process freshRecord (.failure err401) 1 2).record.status = "failed" ∧
    (process freshRecord (.failure err401) 1 2).record.error_message
      = some (getErrorMessage err401) ∧
    (process freshRecord (.failure err401) 1 2).record.retry_count
      = some (freshRecord.retry_count.getD 0 + 1) ∧
    (process freshRecord (.failure err401) 1 2).record.completed_at = some 2 ∧
    (process freshRecord (.failure err401) 1 2).rethrown = some err401 ∧
    (freshRecord.retry_count.getD 0 = 0 →
      (process freshRecord (.failure err401) 1 2).record.retry_count = some 1) :=
  process_failure_recording_uniform freshRecord err401 1 2
